import Mathlib

/-!
# Verification of the GSlides AI updater (`src/gslides_ai/updater.py`)

A shallow embedding of the updater's core functions:

* `replace_app` — the atomic swap-with-backup installer, over an explicit
  filesystem model (`FS`) and an injected fault schedule standing for the
  exceptions `shutil` operations may raise;
* `extract_app` — the archive bundle search over an extracted directory tree;
* `wait_for_process_exit` — the polling loop, with time in half-second ticks;
* `reporthook` — the download progress callback (reals modelled by `ℚ`);
* `run_cli_updater` / `update_thread` / `run_gui_updater` — the two session
  front ends, with the outcome of each leaf I/O call supplied by an
  environment of oracles.
-/

namespace GSlides

/-! ## Path helpers (Python `pathlib`) -/

/-- The final component of a path string, `PurePath.name`. -/
def path_name (p : String) : String :=
  String.mk ((p.data.reverse.takeWhile (fun c => c ≠ '/')).reverse)

/-- `PurePath.suffix`: the last dot-extension of the final component.
Empty when there is no dot, when the dot is the leading character of the
name (hidden files), or when the dot is the final character. -/
def path_suffix (p : String) : String :=
  let cs := (path_name p).data
  match cs.reverse.findIdx? (· == '.') with
  | none => ""
  | some j => if 0 < j ∧ j + 1 < cs.length then String.mk (cs.drop (cs.length - 1 - j)) else ""

/-- `PurePath.with_suffix`: replace the final component's last dot-suffix
(when it has one) by `suf`; otherwise append `suf` to the name. -/
def with_suffix (p : String) (suf : String) : String :=
  let name := path_name p
  let cs := name.data
  let dir := String.mk (p.data.take (p.data.length - cs.length))
  let stem :=
    match cs.reverse.findIdx? (· == '.') with
    | none => name
    | some j => if 0 < j ∧ j + 1 < cs.length then String.mk (cs.take (cs.length - 1 - j)) else name
  dir ++ stem ++ suf

/-! ## Filesystem model

A filesystem is a finite map from path strings to opaque content ids
(`Nat`); a bundle's content is a single id since `replace_app` only ever
moves or deletes whole bundles.  `shutil.move` on the call sites reachable
in `replace_app` is always a rename to a non-existing destination, and
`shutil.rmtree` removes an existing tree, so both are modelled as total
-map updates that fail (`none`, i.e. raise) when their source is absent. -/

abbrev FS := List (String × Nat)

def FS.lookup : FS → String → Option Nat
  | [], _ => none
  | (q, c) :: fs, p => if q = p then some c else FS.lookup fs p

/-- `Path.exists()`. -/
def FS.existsAt (fs : FS) (p : String) : Bool :=
  (fs.lookup p).isSome

def FS.erase (fs : FS) (p : String) : FS :=
  fs.filter (fun e => e.1 != p)

def FS.setFile (fs : FS) (p : String) (c : Nat) : FS :=
  (p, c) :: fs.erase p

/-- `shutil.rmtree(p)`: raises (`none`) when nothing exists at `p`. -/
def FS.rmtree (fs : FS) (p : String) : Option FS :=
  if fs.existsAt p then some (fs.erase p) else none

/-- `shutil.move(src, dst)` as a rename: raises (`none`) when the source is
absent.  Every reachable call in `replace_app` has an absent destination. -/
def FS.move (fs : FS) (src dst : String) : Option FS :=
  match fs.lookup src with
  | none => none
  | some c => some ((fs.erase src).setFile dst c)

/-! ## `replace_app` -/

/-- Outcome of a Python call: a returned value or a propagated exception. -/
inductive RResult where
  | ret (b : Bool)
  | raised
  deriving Repr, DecidableEq

/-- Run one `shutil` primitive under the fault model: the state carries the
filesystem and the count of primitives attempted so far; the `k`-th attempted
operation raises when `fail k`, and an intrinsically invalid operation
(absent source) raises as well.  Returns the new state and whether the
operation succeeded; on a raise the filesystem is unchanged. -/
def runOp (fail : Nat → Bool) (st : FS × Nat) (r : Option FS) : (FS × Nat) × Bool :=
  match r with
  | none => ((st.1, st.2 + 1), false)
  | some fs' => if fail st.2 then ((st.1, st.2 + 1), false) else ((fs', st.2 + 1), true)

/-- The `except` handler of `replace_app` (updater.py lines 95–100): if the
backup exists and the target does not, move the backup back; return `False`.
The restore move is *not* guarded by its own try/except, so when it raises
the exception propagates out of `replace_app` (`RResult.raised`). -/
def exceptRestore (fail : Nat → Bool) (st : FS × Nat) (old_app backup_path : String) :
    FS × RResult :=
  if st.1.existsAt backup_path && !(st.1.existsAt old_app) then
    let r := runOp fail st (st.1.move backup_path old_app)
    if r.2 then (r.1.1, .ret false) else (r.1.1, .raised)
  else (st.1, .ret false)

/-- `replace_app(new_app, old_app)` (updater.py lines 74–100) over the
filesystem model, with `fail` the injected fault schedule for the `shutil`
primitives.  Body, in source order: delete a stale backup if present; move
the current app aside to `backup_path` if present; move the new app into
place; delete the backup; any raise diverts to the `except` handler. -/
def replace_app (fail : Nat → Bool) (new_app old_app : String) (fs : FS) : FS × RResult :=
  let backup_path := with_suffix old_app ".app.backup"
  let s1 :=
    if fs.existsAt backup_path then runOp fail (fs, 0) (fs.rmtree backup_path)
    else ((fs, 0), true)
  if !s1.2 then exceptRestore fail s1.1 old_app backup_path else
  let s2 :=
    if s1.1.1.existsAt old_app then runOp fail s1.1 (s1.1.1.move old_app backup_path)
    else (s1.1, true)
  if !s2.2 then exceptRestore fail s2.1 old_app backup_path else
  let s3 := runOp fail s2.1 (s2.1.1.move new_app old_app)
  if !s3.2 then exceptRestore fail s3.1 old_app backup_path else
  let s4 :=
    if s3.1.1.existsAt backup_path then runOp fail s3.1 (s3.1.1.rmtree backup_path)
    else (s3.1, true)
  if !s4.2 then exceptRestore fail s4.1 old_app backup_path
  else (s4.1.1, .ret true)

/-! ## `extract_app`

`zipfile.extractall` fully materializes the archive's member tree inside
`extract_to`; the extracted tree is modelled directly as a list of entries
(files or directories, in `iterdir()` order). -/

/-- A directory entry of the extraction target. -/
inductive Entry where
  | file (name : String)
  | dir (name : String) (children : List Entry)
  deriving Repr

def Entry.name : Entry → String
  | .file n => n
  | .dir n _ => n

/-- The first loop of `extract_app` (also its inner subdirectory loop):
return the first entry, file or directory, whose name has suffix `.app`. -/
def findApp : List Entry → Option String
  | [] => none
  | e :: es => if path_suffix e.name = ".app" then some e.name else findApp es

/-- The second loop of `extract_app`: scan directories in order and return
the first `.app` entry found among the children of the first directory that
has one, as (directory name, child name). -/
def findNestedApp : List Entry → Option (String × String)
  | [] => none
  | .file _ :: es => findNestedApp es
  | .dir d cs :: es =>
    match findApp cs with
    | some n => some (d, n)
    | none => findNestedApp es

/-- `extract_app(zip_path, extract_to)` (updater.py lines 54–71) after the
extraction step, over the extracted tree: the result is the extract-relative
path of the located bundle (one or two components), or the
`FileNotFoundError` message when no bundle is found. -/
def extract_app (extracted : List Entry) : Except String (List String) :=
  match findApp extracted with
  | some n => .ok [n]
  | none =>
    match findNestedApp extracted with
    | some dn => .ok [dn.1, dn.2]
    | none => .error "No .app bundle found in zip file"

/-- For the spec-side description: the bundle hit one level inside a
directory entry, if any. -/
def nestedHit : Entry → Option (String × String)
  | .file _ => none
  | .dir d cs => (cs.find? (fun c => path_suffix c.name == ".app")).map (fun c => (d, c.name))

/-- The spec's words for `ArchiveInspector.locate_bundle`, stated with
standard list combinators: the first top-level entry recognized by the
bundle suffix; failing that, the first bundle exactly one subdirectory
level deep; failing that, the bundle-not-found error. -/
def locate_bundle_spec (es : List Entry) : Except String (List String) :=
  match es.find? (fun e => path_suffix e.name == ".app") with
  | some e => .ok [e.name]
  | none =>
    match (es.filterMap nestedHit).head? with
    | some p => .ok [p.1, p.2]
    | none => .error "No .app bundle found in zip file"

/-! ## `wait_for_process_exit` -/

/-- The polling loop of `wait_for_process_exit`: `alive k` is the result of
the `k`-th `os.kill(pid, 0)` liveness probe (`true` = a process with that
pid exists, the probe is non-destructive); `r` is the number of probes the
`time.time() - start < timeout` guard still permits.  A probe observing the
process absent returns `True` at once; exhausting the guard returns
`False`. -/
def waitLoop (alive : Nat → Bool) : Nat → Nat → Bool
  | 0, _ => false
  | r + 1, k => if alive k then waitLoop alive r (k + 1) else true

/-- `wait_for_process_exit(pid, timeout)` (updater.py lines 24–35): each
iteration sleeps 0.5 s after a live probe, so a timeout of `timeout` seconds
permits `2 * timeout` probes.  `alive` is the per-pid liveness oracle over
probe indices. -/
def wait_for_process_exit (alive : Nat → Nat → Bool) (pid : Nat) (timeout : Nat) : Bool :=
  waitLoop (alive pid) (2 * timeout) 0

/-! ## `download_file` progress reporting -/

/-- The `reporthook` closure of `download_file` (updater.py lines 41–45),
with Python floats modelled by `ℚ`: when a progress callback was supplied
and the server declared a positive total size, the callback is invoked with
`min(100, block_num * block_size / total_size * 100)` (`some` value);
otherwise it is not invoked (`none`). -/
def reporthook (has_callback : Bool) (total_size : Int) (block_num block_size : Nat) :
    Option ℚ :=
  if has_callback = true ∧ 0 < total_size then
    some (min 100 (((block_num * block_size : Nat) : ℚ) / (total_size : ℚ) * 100))
  else none

/-! ## Session orchestration

The two front ends, `run_cli_updater` and the `update_thread` body of
`run_gui_updater`, are embedded over an environment supplying the outcome
of each leaf I/O call: process liveness drives the modelled
`wait_for_process_exit`, the extracted archive tree drives the modelled
`extract_app`, while the network download and the installer swap are boolean
outcome oracles (`replace_app`'s raising outcome is not modelled at the
session layer).  A run records the phases that began, in order, the failing
phase if any, any `sys.exit` call, and the bundle path handed to
`launch_app`. -/

inductive Phase where
  | wait
  | download
  | extract
  | install
  | launch
  deriving Repr, DecidableEq

/-- Leaf-call outcomes for one session. -/
structure Env where
  alive : Nat → Nat → Bool
  download_ok : String → Bool
  archive : List Entry
  replace_ok : Bool

/-- Observable result of one session run. -/
structure SessionRun where
  phases : List Phase
  failed : Option Phase
  exit_call : Option Nat
  launched : Option String
  deriving Repr, DecidableEq

/-- Python truthiness of the optional `main_pid` argument (`if main_pid:`):
`None` and `0` are falsy. -/
def truthy : Option Nat → Bool
  | none => false
  | some n => n != 0

/-- The download → extract → install → launch tail of `run_cli_updater`
(updater.py lines 235–276), each phase starting only after the previous one
succeeded, with `sys.exit(1)` on each failure. -/
def cli_pipeline (env : Env) (download_url app_path : String) : SessionRun :=
  if env.download_ok download_url = false then
    ⟨[Phase.download], some Phase.download, some 1, none⟩
  else
    match extract_app env.archive with
    | .error _ => ⟨[Phase.download, Phase.extract], some Phase.extract, some 1, none⟩
    | .ok _ =>
      if env.replace_ok = false then
        ⟨[Phase.download, Phase.extract, Phase.install], some Phase.install, some 1, none⟩
      else
        ⟨[Phase.download, Phase.extract, Phase.install, Phase.launch],
          none, none, some app_path⟩

/-- `run_cli_updater(download_url, app_path, main_pid)` (lines 223–276):
wait for the main process when `main_pid` is truthy — `sys.exit(1)` on
timeout — then run the pipeline tail. -/
def run_cli_updater (env : Env) (download_url app_path : String) (main_pid : Option Nat) :
    SessionRun :=
  if truthy main_pid then
    if wait_for_process_exit env.alive (main_pid.getD 0) 30 then
      let r := cli_pipeline env download_url app_path
      ⟨Phase.wait :: r.phases, r.failed, r.exit_call, r.launched⟩
    else ⟨[Phase.wait], some Phase.wait, some 1, none⟩
  else cli_pipeline env download_url app_path

/-- The pipeline tail of the GUI `update_thread` (lines 163–208): the same
sequence, reporting failure through the progress surface and closing the
window instead of calling `sys.exit`. -/
def gui_pipeline (env : Env) (download_url app_path : String) : SessionRun :=
  if env.download_ok download_url = false then
    ⟨[Phase.download], some Phase.download, none, none⟩
  else
    match extract_app env.archive with
    | .error _ => ⟨[Phase.download, Phase.extract], some Phase.extract, none, none⟩
    | .ok _ =>
      if env.replace_ok = false then
        ⟨[Phase.download, Phase.extract, Phase.install], some Phase.install, none, none⟩
      else
        ⟨[Phase.download, Phase.extract, Phase.install, Phase.launch],
          none, none, some app_path⟩

/-- The `update_thread` body of `run_gui_updater` (lines 152–213). -/
def update_thread (env : Env) (download_url app_path : String) (main_pid : Option Nat) :
    SessionRun :=
  if truthy main_pid then
    if wait_for_process_exit env.alive (main_pid.getD 0) 30 then
      let r := gui_pipeline env download_url app_path
      ⟨Phase.wait :: r.phases, r.failed, r.exit_call, r.launched⟩
    else ⟨[Phase.wait], some Phase.wait, none, none⟩
  else gui_pipeline env download_url app_path

/-- `run_gui_updater` (lines 108–220): when the Flet GUI toolkit imports,
run the GUI update thread; when the import fails, fall back to
`run_cli_updater` with the same arguments. -/
def run_gui_updater (flet_available : Bool) (env : Env) (download_url app_path : String)
    (main_pid : Option Nat) : SessionRun :=
  if flet_available then update_thread env download_url app_path main_pid
  else run_cli_updater env download_url app_path main_pid

/-- The strict session order of §2: wait (when a pid is watched), download,
extract, install, launch. -/
def session_phase_order (main_pid : Option Nat) : List Phase :=
  (if truthy main_pid then [Phase.wait] else []) ++
    [Phase.download, Phase.extract, Phase.install, Phase.launch]

/-- A run respects the phase discipline: its executed phases are an initial
segment of the session order (so strictly sequential, never repeated, never
reordered), a failure-free run executes every phase, and a failed run stops
at the failing phase. -/
def phase_discipline (r : SessionRun) (main_pid : Option Nat) : Prop :=
  r.phases = (session_phase_order main_pid).take r.phases.length ∧
  (r.failed = none → r.phases = session_phase_order main_pid) ∧
  (∀ p, r.failed = some p → r.phases.getLast? = some p)

example : path_suffix "Foo.app" = ".app" := by decide
example : path_suffix ".app" = "" := by decide
example : path_suffix "dir/Foo.app" = ".app" := by decide
example : with_suffix "App.app" ".app.backup" = "App.app.backup" := by decide
example : with_suffix "/x/App.app" ".app.backup" = "/x/App.app.backup" := by decide

example : extract_app [Entry.file "readme.txt", Entry.file "A.app"] = .ok ["A.app"] := rfl
example : extract_app [Entry.dir "sub" [Entry.file "A.app"]] = .ok ["sub", "A.app"] := rfl
example : extract_app [Entry.dir "a" [Entry.dir "b" [Entry.file "X.app"]]]
    = .error "No .app bundle found in zip file" := rfl

theorem FS.lookup_erase (fs : FS) (p q : String) :
    (fs.erase p).lookup q = if q = p then none else fs.lookup q := by
  induction fs with
  | nil => simp [FS.erase, FS.lookup]
  | cons e fs ih =>
    unfold FS.erase at ih ⊢
    rw [List.filter_cons]
    by_cases hep : e.1 = p
    · simp only [hep, bne_self_eq_false, Bool.false_eq_true, if_false, ih]
      by_cases hqp : q = p
      · simp [hqp]
      · have hne : ¬ e.1 = q := fun h => hqp ((h.symm.trans hep) : q = p)
        simp [hqp, FS.lookup, hne]
    · have ht : (e.1 != p) = true := by simpa using hep
      simp only [ht, if_true, FS.lookup, ih]
      by_cases heq : e.1 = q
      · have hqp : ¬(q = p) := fun h => hep (heq.trans h)
        simp [heq, hqp]
      · simp [heq]

theorem FS.lookup_setFile (fs : FS) (p : String) (c : Nat) (q : String) :
    (fs.setFile p c).lookup q = if q = p then some c else fs.lookup q := by
  unfold FS.setFile
  by_cases h : q = p
  · simp [FS.lookup, h]
  · have hpq : ¬ p = q := fun hh => h hh.symm
    simp [FS.lookup, h, hpq, FS.lookup_erase]

theorem FS.existsAt_eq (fs : FS) (p : String) :
    fs.existsAt p = (fs.lookup p).isSome := rfl

/-- Exhaustive characterization of the terminal states of `replace_app`, for a
starting filesystem holding the original bundle at `old_app` and the freshly
extracted bundle at `new_app`.  Conjuncts: (1) every *returning* run leaves the
target holding the new or the original bundle; (2) the target and the backup
slot are never both absent; (3) a propagated exception happens only when the
restore move failed, with the original surviving at the backup path and the
target absent; (4) a `False` return leaves the target occupied; (5) a `True`
return leaves the new bundle installed, no backup, and the source consumed. -/
theorem replace_app_master (fail : Nat → Bool) (new_app old_app : String) (fs : FS)
    (oldC newC : Nat)
    (h_old : fs.lookup old_app = some oldC)
    (h_new : fs.lookup new_app = some newC)
    (hno : new_app ≠ old_app)
    (hnb : new_app ≠ with_suffix old_app ".app.backup")
    (hob : old_app ≠ with_suffix old_app ".app.backup") :
    (∀ b, (replace_app fail new_app old_app fs).2 = .ret b →
        ((replace_app fail new_app old_app fs).1.lookup old_app = some newC ∨
         (replace_app fail new_app old_app fs).1.lookup old_app = some oldC))
    ∧ ((replace_app fail new_app old_app fs).1.existsAt old_app = true ∨
       (replace_app fail new_app old_app fs).1.existsAt (with_suffix old_app ".app.backup") = true)
    ∧ ((replace_app fail new_app old_app fs).2 = .raised →
        (replace_app fail new_app old_app fs).1.lookup (with_suffix old_app ".app.backup")
            = some oldC ∧
        (replace_app fail new_app old_app fs).1.lookup old_app = none)
    ∧ ((replace_app fail new_app old_app fs).2 = .ret false →
        (replace_app fail new_app old_app fs).1.existsAt old_app = true)
    ∧ ((replace_app fail new_app old_app fs).2 = .ret true →
        (replace_app fail new_app old_app fs).1.lookup old_app = some newC ∧
        (replace_app fail new_app old_app fs).1.existsAt (with_suffix old_app ".app.backup")
            = false ∧
        (replace_app fail new_app old_app fs).1.lookup new_app = none) := by
  have hbo : ¬ (with_suffix old_app ".app.backup" = old_app) := fun h => hob h.symm
  have hbn : ¬ (with_suffix old_app ".app.backup" = new_app) := fun h => hnb h.symm
  have hon : ¬ (old_app = new_app) := fun h => hno h.symm
  by_cases hbp : (fs.lookup (with_suffix old_app ".app.backup")).isSome = true
  · by_cases hf0 : fail 0 = true
    · simp [replace_app, exceptRestore, runOp, FS.rmtree, FS.move, FS.existsAt_eq,
        FS.lookup_erase, FS.lookup_setFile, hbp, hf0, h_old, h_new, hno, hnb, hob, hbo, hbn, hon]
    · by_cases hf1 : fail 1 = true
      · simp [replace_app, exceptRestore, runOp, FS.rmtree, FS.move, FS.existsAt_eq,
          FS.lookup_erase, FS.lookup_setFile, hbp, hf0, hf1, h_old, h_new,
          hno, hnb, hob, hbo, hbn, hon]
      · by_cases hf2 : fail 2 = true
        · by_cases hf3 : fail 3 = true
          · simp [replace_app, exceptRestore, runOp, FS.rmtree, FS.move, FS.existsAt_eq,
              FS.lookup_erase, FS.lookup_setFile, hbp, hf0, hf1, hf2, hf3, h_old, h_new,
              hno, hnb, hob, hbo, hbn, hon]
          · simp [replace_app, exceptRestore, runOp, FS.rmtree, FS.move, FS.existsAt_eq,
              FS.lookup_erase, FS.lookup_setFile, hbp, hf0, hf1, hf2, hf3, h_old, h_new,
              hno, hnb, hob, hbo, hbn, hon]
        · by_cases hf3 : fail 3 = true
          · simp [replace_app, exceptRestore, runOp, FS.rmtree, FS.move, FS.existsAt_eq,
              FS.lookup_erase, FS.lookup_setFile, hbp, hf0, hf1, hf2, hf3, h_old, h_new,
              hno, hnb, hob, hbo, hbn, hon]
          · simp [replace_app, exceptRestore, runOp, FS.rmtree, FS.move, FS.existsAt_eq,
              FS.lookup_erase, FS.lookup_setFile, hbp, hf0, hf1, hf2, hf3, h_old, h_new,
              hno, hnb, hob, hbo, hbn, hon]
  · simp only [Bool.not_eq_true] at hbp
    by_cases hf0 : fail 0 = true
    · simp [replace_app, exceptRestore, runOp, FS.rmtree, FS.move, FS.existsAt_eq,
        FS.lookup_erase, FS.lookup_setFile, hbp, hf0, h_old, h_new, hno, hnb, hob, hbo, hbn, hon]
    · by_cases hf1 : fail 1 = true
      · by_cases hf2 : fail 2 = true
        · simp [replace_app, exceptRestore, runOp, FS.rmtree, FS.move, FS.existsAt_eq,
            FS.lookup_erase, FS.lookup_setFile, hbp, hf0, hf1, hf2, h_old, h_new,
            hno, hnb, hob, hbo, hbn, hon]
        · simp [replace_app, exceptRestore, runOp, FS.rmtree, FS.move, FS.existsAt_eq,
            FS.lookup_erase, FS.lookup_setFile, hbp, hf0, hf1, hf2, h_old, h_new,
            hno, hnb, hob, hbo, hbn, hon]
      · by_cases hf2 : fail 2 = true
        · simp [replace_app, exceptRestore, runOp, FS.rmtree, FS.move, FS.existsAt_eq,
            FS.lookup_erase, FS.lookup_setFile, hbp, hf0, hf1, hf2, h_old, h_new,
            hno, hnb, hob, hbo, hbn, hon]
        · simp [replace_app, exceptRestore, runOp, FS.rmtree, FS.move, FS.existsAt_eq,
            FS.lookup_erase, FS.lookup_setFile, hbp, hf0, hf1, hf2, h_old, h_new,
            hno, hnb, hob, hbo, hbn, hon]

/-- C1, counterexample: when the final backup-cleanup `rmtree` raises (the
third primitive, index 2, on a state with no stale backup), `replace_app`
returns `False` with the new bundle installed at the target *and* the backup
still present — neither disjunct of the claim holds at this returning state. -/
theorem C1_cleanup_failure_counterexample :
    (replace_app (fun k => k == 2) "New.app" "App.app"
        [("App.app", 1), ("New.app", 2)]).2 = .ret false ∧
    (replace_app (fun k => k == 2) "New.app" "App.app"
        [("App.app", 1), ("New.app", 2)]).1.lookup "App.app" = some 2 ∧
    ¬ (((replace_app (fun k => k == 2) "New.app" "App.app"
          [("App.app", 1), ("New.app", 2)]).1.lookup "App.app" = some 2 ∧
        (replace_app (fun k => k == 2) "New.app" "App.app"
          [("App.app", 1), ("New.app", 2)]).1.existsAt
            (with_suffix "App.app" ".app.backup") = false) ∨
       ((replace_app (fun k => k == 2) "New.app" "App.app"
          [("App.app", 1), ("New.app", 2)]).1.lookup "App.app" = some 1 ∧
        (replace_app (fun k => k == 2) "New.app" "App.app"
          [("App.app", 1), ("New.app", 2)]).1.existsAt
            (with_suffix "App.app" ".app.backup") = false)) := by decide

/-- C1 (amended): from a state holding the original bundle at the target and
the new bundle at its staging path, every *returning* run of `replace_app`
leaves the target holding either the new bundle or the original bundle (a
backup may additionally remain when a backup-deletion step failed), and no
terminal state — returning or raising — has the target and the backup slot
both absent. -/
theorem replace_app_terminal_state (fail : Nat → Bool) (new_app old_app : String) (fs : FS)
    (oldC newC : Nat)
    (h_old : fs.lookup old_app = some oldC)
    (h_new : fs.lookup new_app = some newC)
    (hno : new_app ≠ old_app)
    (hnb : new_app ≠ with_suffix old_app ".app.backup")
    (hob : old_app ≠ with_suffix old_app ".app.backup") :
    (∀ b, (replace_app fail new_app old_app fs).2 = .ret b →
        ((replace_app fail new_app old_app fs).1.lookup old_app = some newC ∨
         (replace_app fail new_app old_app fs).1.lookup old_app = some oldC))
    ∧ ((replace_app fail new_app old_app fs).1.existsAt old_app = true ∨
       (replace_app fail new_app old_app fs).1.existsAt
           (with_suffix old_app ".app.backup") = true) :=
  ⟨(replace_app_master fail new_app old_app fs oldC newC h_old h_new hno hnb hob).1,
   (replace_app_master fail new_app old_app fs oldC newC h_old h_new hno hnb hob).2.1⟩

/-- Witness for `replace_app_terminal_state` at a concrete fault-free input. -/
theorem replace_app_terminal_state_witness :
    (∀ b, (replace_app (fun _ => false) "New.app" "App.app"
        [("App.app", 5), ("New.app", 7)]).2 = .ret b →
        ((replace_app (fun _ => false) "New.app" "App.app"
            [("App.app", 5), ("New.app", 7)]).1.lookup "App.app" = some 7 ∨
         (replace_app (fun _ => false) "New.app" "App.app"
            [("App.app", 5), ("New.app", 7)]).1.lookup "App.app" = some 5))
    ∧ ((replace_app (fun _ => false) "New.app" "App.app"
          [("App.app", 5), ("New.app", 7)]).1.existsAt "App.app" = true ∨
       (replace_app (fun _ => false) "New.app" "App.app"
          [("App.app", 5), ("New.app", 7)]).1.existsAt
            (with_suffix "App.app" ".app.backup") = true) :=
  replace_app_terminal_state (fun _ => false) "New.app" "App.app"
    [("App.app", 5), ("New.app", 7)] 5 7 (by decide) (by decide)
    (by decide) (by decide) (by decide)

/-- C2, counterexample: the restore move in the `except` handler is not itself
guarded, so when the move-in step fails (fault index 1) and the restore move
also fails (fault index 2), `replace_app` does not return `False` — the
exception propagates, leaving the target absent and the original bundle
stranded at the backup path. -/
theorem C2_restore_failure_counterexample :
    (replace_app (fun k => k == 1 || k == 2) "New.app" "App.app"
        [("App.app", 1), ("New.app", 2)]).2 = .raised ∧
    (replace_app (fun k => k == 1 || k == 2) "New.app" "App.app"
        [("App.app", 1), ("New.app", 2)]).2 ≠ .ret false ∧
    (replace_app (fun k => k == 1 || k == 2) "New.app" "App.app"
        [("App.app", 1), ("New.app", 2)]).1.lookup
          (with_suffix "App.app" ".app.backup") = some 1 ∧
    (replace_app (fun k => k == 1 || k == 2) "New.app" "App.app"
        [("App.app", 1), ("New.app", 2)]).1.lookup "App.app" = none := by decide

/-- C2 (amended): when a step of `replace_app` fails, a normal (non-raising)
failure return is always `False` and leaves the target location occupied —
the restore having run, or never having been needed; when the restore move
itself fails the exception propagates out of `replace_app` instead of a
`False` return, and in that raising state the original bundle survives at the
backup path while the target is absent. -/
theorem replace_app_failure_reporting (fail : Nat → Bool) (new_app old_app : String) (fs : FS)
    (oldC newC : Nat)
    (h_old : fs.lookup old_app = some oldC)
    (h_new : fs.lookup new_app = some newC)
    (hno : new_app ≠ old_app)
    (hnb : new_app ≠ with_suffix old_app ".app.backup")
    (hob : old_app ≠ with_suffix old_app ".app.backup") :
    ((replace_app fail new_app old_app fs).2 = .raised →
        (replace_app fail new_app old_app fs).1.lookup
            (with_suffix old_app ".app.backup") = some oldC ∧
        (replace_app fail new_app old_app fs).1.lookup old_app = none)
    ∧ ((replace_app fail new_app old_app fs).2 = .ret false →
        (replace_app fail new_app old_app fs).1.existsAt old_app = true) :=
  ⟨(replace_app_master fail new_app old_app fs oldC newC h_old h_new hno hnb hob).2.2.1,
   (replace_app_master fail new_app old_app fs oldC newC h_old h_new hno hnb hob).2.2.2.1⟩

/-- Witness for `replace_app_failure_reporting` at a concrete input whose
move-in step fails and whose restore succeeds. -/
theorem replace_app_failure_reporting_witness :
    ((replace_app (fun k => k == 1) "New.app" "App.app"
        [("App.app", 5), ("New.app", 7)]).2 = .raised →
        (replace_app (fun k => k == 1) "New.app" "App.app"
            [("App.app", 5), ("New.app", 7)]).1.lookup
              (with_suffix "App.app" ".app.backup") = some 5 ∧
        (replace_app (fun k => k == 1) "New.app" "App.app"
            [("App.app", 5), ("New.app", 7)]).1.lookup "App.app" = none)
    ∧ ((replace_app (fun k => k == 1) "New.app" "App.app"
          [("App.app", 5), ("New.app", 7)]).2 = .ret false →
        (replace_app (fun k => k == 1) "New.app" "App.app"
            [("App.app", 5), ("New.app", 7)]).1.existsAt "App.app" = true) :=
  replace_app_failure_reporting (fun k => k == 1) "New.app" "App.app"
    [("App.app", 5), ("New.app", 7)] 5 7 (by decide) (by decide)
    (by decide) (by decide) (by decide)

/-- C3: a stale file at the derived backup path is deleted first (it is the
first `shutil` primitive attempted), and — provided that deletion does not
itself raise — the rest of the run is *identical* to a run started on the
state with the stale backup already gone, with the fault schedule shifted
past the deletion: the stale backup neither blocks nor alters a fresh
attempt. -/
theorem replace_app_stale_backup (fail : Nat → Bool) (new_app old_app : String) (fs : FS)
    (oldC newC : Nat)
    (h_old : fs.lookup old_app = some oldC)
    (h_new : fs.lookup new_app = some newC)
    (hno : new_app ≠ old_app)
    (hnb : new_app ≠ with_suffix old_app ".app.backup")
    (hob : old_app ≠ with_suffix old_app ".app.backup")
    (hstale : (fs.lookup (with_suffix old_app ".app.backup")).isSome = true)
    (hf0 : fail 0 = false) :
    replace_app fail new_app old_app fs
      = replace_app (fun k => fail (k + 1)) new_app old_app
          (fs.erase (with_suffix old_app ".app.backup")) := by
  have hbo : ¬ (with_suffix old_app ".app.backup" = old_app) := fun h => hob h.symm
  have hbn : ¬ (with_suffix old_app ".app.backup" = new_app) := fun h => hnb h.symm
  have hon : ¬ (old_app = new_app) := fun h => hno h.symm
  by_cases hf1 : fail 1 = true
  · simp [replace_app, exceptRestore, runOp, FS.rmtree, FS.move, FS.existsAt_eq,
      FS.lookup_erase, FS.lookup_setFile, hstale, hf0, hf1, h_old, h_new,
      hno, hnb, hob, hbo, hbn, hon]
  · by_cases hf2 : fail 2 = true
    · by_cases hf3 : fail 3 = true
      · simp [replace_app, exceptRestore, runOp, FS.rmtree, FS.move, FS.existsAt_eq,
          FS.lookup_erase, FS.lookup_setFile, hstale, hf0, hf1, hf2, hf3, h_old, h_new,
          hno, hnb, hob, hbo, hbn, hon]
      · simp [replace_app, exceptRestore, runOp, FS.rmtree, FS.move, FS.existsAt_eq,
          FS.lookup_erase, FS.lookup_setFile, hstale, hf0, hf1, hf2, hf3, h_old, h_new,
          hno, hnb, hob, hbo, hbn, hon]
    · by_cases hf3 : fail 3 = true
      · simp [replace_app, exceptRestore, runOp, FS.rmtree, FS.move, FS.existsAt_eq,
          FS.lookup_erase, FS.lookup_setFile, hstale, hf0, hf1, hf2, hf3, h_old, h_new,
          hno, hnb, hob, hbo, hbn, hon]
      · simp [replace_app, exceptRestore, runOp, FS.rmtree, FS.move, FS.existsAt_eq,
          FS.lookup_erase, FS.lookup_setFile, hstale, hf0, hf1, hf2, hf3, h_old, h_new,
          hno, hnb, hob, hbo, hbn, hon]

/-- Witness for `replace_app_stale_backup` at a concrete fault-free input
holding a stale backup. -/
theorem replace_app_stale_backup_witness :
    replace_app (fun _ => false) "New.app" "App.app"
        [("App.app.backup", 9), ("App.app", 5), ("New.app", 7)]
      = replace_app (fun k => (fun _ => false) (k + 1)) "New.app" "App.app"
          (FS.erase [("App.app.backup", 9), ("App.app", 5), ("New.app", 7)]
            (with_suffix "App.app" ".app.backup")) :=
  replace_app_stale_backup (fun _ => false) "New.app" "App.app"
    [("App.app.backup", 9), ("App.app", 5), ("New.app", 7)] 5 7
    (by decide) (by decide) (by decide) (by decide) (by decide) (by decide) (by decide)

/-- C10: when nothing exists at the target path, a fault-free `replace_app`
creates no backup, moves the new bundle into place, and returns `True` — a
missing old installation is not an error for the install step. -/
theorem replace_app_missing_old (new_app old_app : String) (fs : FS) (newC : Nat)
    (h_old : fs.lookup old_app = none)
    (h_new : fs.lookup new_app = some newC)
    (hnb : new_app ≠ with_suffix old_app ".app.backup")
    (hob : old_app ≠ with_suffix old_app ".app.backup") :
    (replace_app (fun _ => false) new_app old_app fs).2 = .ret true ∧
    (replace_app (fun _ => false) new_app old_app fs).1.lookup old_app = some newC ∧
    (replace_app (fun _ => false) new_app old_app fs).1.existsAt
        (with_suffix old_app ".app.backup") = false := by
  have hon : ¬ (old_app = new_app) := by
    intro h
    rw [h] at h_old
    rw [h_old] at h_new
    exact Option.noConfusion h_new
  have hno : ¬ (new_app = old_app) := fun h => hon h.symm
  have hbo : ¬ (with_suffix old_app ".app.backup" = old_app) := fun h => hob h.symm
  have hbn : ¬ (with_suffix old_app ".app.backup" = new_app) := fun h => hnb h.symm
  by_cases hbp : (fs.lookup (with_suffix old_app ".app.backup")).isSome = true <;>
    simp [replace_app, exceptRestore, runOp, FS.rmtree, FS.move, FS.existsAt_eq,
      FS.lookup_erase, FS.lookup_setFile, hbp, h_old, h_new, hno, hnb, hob, hbo, hbn, hon]

/-- Witness for `replace_app_missing_old` at a concrete input with no old
installation. -/
theorem replace_app_missing_old_witness :
    (replace_app (fun _ => false) "New.app" "App.app" [("New.app", 7)]).2 = .ret true ∧
    (replace_app (fun _ => false) "New.app" "App.app" [("New.app", 7)]).1.lookup "App.app"
        = some 7 ∧
    (replace_app (fun _ => false) "New.app" "App.app" [("New.app", 7)]).1.existsAt
        (with_suffix "App.app" ".app.backup") = false :=
  replace_app_missing_old "New.app" "App.app" [("New.app", 7)] 7
    (by decide) (by decide) (by decide) (by decide)

theorem findApp_eq_find? (es : List Entry) :
    findApp es = (es.find? (fun e => path_suffix e.name == ".app")).map Entry.name := by
  induction es with
  | nil => simp [findApp]
  | cons e es ih =>
    by_cases h : path_suffix e.name = ".app"
    · simp [findApp, List.find?, h]
    · have hb : (path_suffix e.name == ".app") = false := by simp [h]
      simp [findApp, List.find?, h, hb, ih]

theorem findNestedApp_eq_filterMap (es : List Entry) :
    findNestedApp es = (es.filterMap nestedHit).head? := by
  induction es with
  | nil => simp [findNestedApp]
  | cons e es ih =>
    cases e with
    | file n => simp [findNestedApp, nestedHit, List.filterMap_cons, ih]
    | dir d cs =>
      rw [show findNestedApp (Entry.dir d cs :: es)
            = (match findApp cs with
               | some n => some (d, n)
               | none => findNestedApp es) from rfl]
      rw [findApp_eq_find?]
      cases hf : cs.find? (fun c => path_suffix c.name == ".app") with
      | some c => simp [List.filterMap_cons, nestedHit, hf]
      | none => simp [List.filterMap_cons, nestedHit, hf, ih]

/-- C4: `extract_app` equals the spec's search — the first top-level entry
with the bundle suffix, then the first bundle exactly one subdirectory level
deep, then the bundle-not-found error — and it fails with that error if and
only if no entry with the `.app` suffix exists at either depth, so deeper
nesting is never found. -/
theorem extract_app_spec (es : List Entry) :
    extract_app es = locate_bundle_spec es ∧
    (extract_app es = .error "No .app bundle found in zip file" ↔
      (∀ e ∈ es, path_suffix e.name ≠ ".app") ∧
      (∀ d cs, Entry.dir d cs ∈ es → ∀ c ∈ cs, path_suffix c.name ≠ ".app")) := by
  have hmain : extract_app es = locate_bundle_spec es := by
    unfold extract_app locate_bundle_spec
    rw [findApp_eq_find?, findNestedApp_eq_filterMap]
    cases hf : es.find? (fun e => path_suffix e.name == ".app") with
    | some e => simp
    | none => cases hn : (es.filterMap nestedHit).head? <;> simp
  refine ⟨hmain, ?_⟩
  constructor
  · intro herr
    unfold extract_app at herr
    rw [findApp_eq_find?] at herr
    cases hf : es.find? (fun e => path_suffix e.name == ".app") with
    | some e => simp [hf] at herr
    | none =>
      rw [hf] at herr
      simp only [Option.map_none'] at herr
      rw [findNestedApp_eq_filterMap] at herr
      cases hn : (es.filterMap nestedHit).head? with
      | some pr => simp [hn] at herr
      | none =>
        have hnil : es.filterMap nestedHit = [] := List.head?_eq_none_iff.mp hn
        have hall := List.filterMap_eq_nil_iff.mp hnil
        constructor
        · intro e he hc
          have := List.find?_eq_none.mp hf e he
          simp [hc] at this
        · intro d cs hmem c hc hcs
          have hhit := hall _ hmem
          simp only [nestedHit, Option.map_eq_none'] at hhit
          have := List.find?_eq_none.mp hhit c hc
          simp [hcs] at this
  · rintro ⟨h1, h2⟩
    unfold extract_app
    rw [findApp_eq_find?, findNestedApp_eq_filterMap]
    have hf : es.find? (fun e => path_suffix e.name == ".app") = none := by
      rw [List.find?_eq_none]
      intro e he
      simp [h1 e he]
    have hn : (es.filterMap nestedHit).head? = none := by
      rw [List.head?_eq_none_iff, List.filterMap_eq_nil_iff]
      intro e he
      cases e with
      | file n => simp [nestedHit]
      | dir d cs =>
        simp only [nestedHit, Option.map_eq_none']
        rw [List.find?_eq_none]
        intro c hc
        simp [h2 d cs he c hc]
    rw [hf, hn]
    simp

/-- Witness for `extract_app_spec` at a concrete one-level-nested archive. -/
theorem extract_app_spec_witness :
    extract_app [Entry.dir "sub" [Entry.file "A.app"]]
        = locate_bundle_spec [Entry.dir "sub" [Entry.file "A.app"]] ∧
    (extract_app [Entry.dir "sub" [Entry.file "A.app"]]
        = .error "No .app bundle found in zip file" ↔
      (∀ e ∈ [Entry.dir "sub" [Entry.file "A.app"]], path_suffix e.name ≠ ".app") ∧
      (∀ d cs, Entry.dir d cs ∈ [Entry.dir "sub" [Entry.file "A.app"]] →
        ∀ c ∈ cs, path_suffix c.name ≠ ".app")) :=
  extract_app_spec [Entry.dir "sub" [Entry.file "A.app"]]

theorem waitLoop_eq_true_iff (alive : Nat → Bool) (r k : Nat) :
    waitLoop alive r k = true ↔ ∃ j, j < r ∧ alive (k + j) = false := by
  induction r generalizing k with
  | zero => simp [waitLoop]
  | succ r ih =>
    by_cases h : alive k = true
    · rw [waitLoop, if_pos h, ih]
      constructor
      · rintro ⟨j, hj, hf⟩
        refine ⟨j + 1, by omega, ?_⟩
        rw [show k + (j + 1) = k + 1 + j by omega]
        exact hf
      · rintro ⟨j, hj, hf⟩
        cases j with
        | zero => rw [Nat.add_zero] at hf; rw [hf] at h; exact Bool.noConfusion h
        | succ j' =>
          refine ⟨j', by omega, ?_⟩
          rw [show k + 1 + j' = k + (j' + 1) by omega]
          exact hf
    · have hfalse : alive k = false := by simpa using h
      rw [waitLoop, if_neg h]
      simp only [true_iff]
      exact ⟨0, by omega, by rw [Nat.add_zero]; exact hfalse⟩

/-- C5: `wait_for_process_exit` returns `True` exactly when some permitted
probe observes the process absent — in particular on the very first probe
when no process with that pid exists and the timeout is positive — and
returns `False` when every permitted probe observes the process present,
i.e. when the timeout elapses. -/
theorem wait_for_process_exit_spec (alive : Nat → Nat → Bool) (pid : Nat) (timeout : Nat) :
    (wait_for_process_exit alive pid timeout = true ↔
      ∃ j, j < 2 * timeout ∧ alive pid j = false) ∧
    (alive pid 0 = false → 0 < timeout →
      wait_for_process_exit alive pid timeout = true) ∧
    ((∀ j, j < 2 * timeout → alive pid j = true) →
      wait_for_process_exit alive pid timeout = false) := by
  have hiff : wait_for_process_exit alive pid timeout = true ↔
      ∃ j, j < 2 * timeout ∧ alive pid j = false := by
    unfold wait_for_process_exit
    rw [waitLoop_eq_true_iff]
    constructor
    · rintro ⟨j, hj, hf⟩
      exact ⟨j, hj, by rw [Nat.zero_add] at hf; exact hf⟩
    · rintro ⟨j, hj, hf⟩
      exact ⟨j, hj, by rw [Nat.zero_add]; exact hf⟩
  refine ⟨hiff, ?_, ?_⟩
  · intro h0 ht
    exact hiff.mpr ⟨0, by omega, h0⟩
  · intro hall
    cases hres : wait_for_process_exit alive pid timeout with
    | false => rfl
    | true =>
      obtain ⟨j, hj, hf⟩ := hiff.mp hres
      rw [hall j hj] at hf
      exact Bool.noConfusion hf

/-- Witness for `wait_for_process_exit_spec`: a pid that never exists is
reported exited at once; a process that never exits makes the call time
out. -/
theorem wait_for_process_exit_spec_witness :
    wait_for_process_exit (fun _ _ => false) 123 30 = true ∧
    wait_for_process_exit (fun _ _ => true) 123 30 = false :=
  ⟨(wait_for_process_exit_spec (fun _ _ => false) 123 30).2.1 rfl (by omega),
   (wait_for_process_exit_spec (fun _ _ => true) 123 30).2.2 (fun _ _ => rfl)⟩

/-- C8: the progress callback is invoked only with percent values in
`[0, 100]` — the bytes-downloaded over server-declared-total ratio, capped
at 100 — and when the server declares no positive total size it is never
invoked at all. -/
theorem reporthook_bounds (has_callback : Bool) (total_size : Int)
    (block_num block_size : Nat) :
    (∀ p, reporthook has_callback total_size block_num block_size = some p →
        0 ≤ p ∧ p ≤ 100) ∧
    (total_size ≤ 0 → reporthook has_callback total_size block_num block_size = none) := by
  constructor
  · intro p hp
    unfold reporthook at hp
    split at hp
    · rename_i hcond
      obtain ⟨hcb, hts⟩ := hcond
      simp only [Option.some.injEq] at hp
      subst hp
      have hnum : (0 : ℚ) ≤ ((block_num * block_size : Nat) : ℚ) := Nat.cast_nonneg _
      have hden : (0 : ℚ) ≤ (total_size : ℚ) := by
        exact_mod_cast le_of_lt hts
      constructor
      · exact le_min (by norm_num)
          (mul_nonneg (div_nonneg hnum hden) (by norm_num))
      · exact min_le_left _ _
    · exact Option.noConfusion hp
  · intro hle
    unfold reporthook
    rw [if_neg]
    rintro ⟨_, hpos⟩
    omega

/-- Witness for `reporthook_bounds`: one block of 100 bytes out of a
declared 200 reports 50 %, and a declared size of −3 suppresses reporting. -/
theorem reporthook_bounds_witness :
    ((0 : ℚ) ≤ 50 ∧ (50 : ℚ) ≤ 100) ∧ reporthook true (-3) 1 1 = none :=
  ⟨(reporthook_bounds true 200 1 100).1 50 (by norm_num [reporthook]),
   (reporthook_bounds true (-3) 1 1).2 (by norm_num)⟩

/-- C6: in both front ends every run's executed phases form an initial
segment of wait → download → extract → install → launch (wait present
exactly when a pid is watched): phases are strictly sequential, a phase
begins only after all previous phases succeeded, a failure-free run executes
them all, and a failed run ends at its failing phase with no later phase
executed and no retry. -/
theorem session_phase_discipline (env : Env) (download_url app_path : String)
    (main_pid : Option Nat) :
    phase_discipline (run_cli_updater env download_url app_path main_pid) main_pid ∧
    phase_discipline (update_thread env download_url app_path main_pid) main_pid := by
  by_cases ht : truthy main_pid = true
  · by_cases hw : wait_for_process_exit env.alive (main_pid.getD 0) 30 = true
    · by_cases hd : env.download_ok download_url = true
      · cases hx : extract_app env.archive with
        | error e =>
          constructor <;>
            simp [phase_discipline, run_cli_updater, update_thread, cli_pipeline,
              gui_pipeline, session_phase_order, ht, hw, hd, hx]
        | ok v =>
          by_cases hr : env.replace_ok = true
          · constructor <;>
              simp [phase_discipline, run_cli_updater, update_thread, cli_pipeline,
                gui_pipeline, session_phase_order, ht, hw, hd, hx, hr]
          · simp only [Bool.not_eq_true] at hr
            constructor <;>
              simp [phase_discipline, run_cli_updater, update_thread, cli_pipeline,
                gui_pipeline, session_phase_order, ht, hw, hd, hx, hr]
      · simp only [Bool.not_eq_true] at hd
        constructor <;>
          simp [phase_discipline, run_cli_updater, update_thread, cli_pipeline,
            gui_pipeline, session_phase_order, ht, hw, hd]
    · simp only [Bool.not_eq_true] at hw
      constructor <;>
        simp [phase_discipline, run_cli_updater, update_thread, session_phase_order, ht, hw]
  · simp only [Bool.not_eq_true] at ht
    by_cases hd : env.download_ok download_url = true
    · cases hx : extract_app env.archive with
      | error e =>
        constructor <;>
          simp [phase_discipline, run_cli_updater, update_thread, cli_pipeline,
            gui_pipeline, session_phase_order, ht, hd, hx]
      | ok v =>
        by_cases hr : env.replace_ok = true
        · constructor <;>
            simp [phase_discipline, run_cli_updater, update_thread, cli_pipeline,
              gui_pipeline, session_phase_order, ht, hd, hx, hr]
        · simp only [Bool.not_eq_true] at hr
          constructor <;>
            simp [phase_discipline, run_cli_updater, update_thread, cli_pipeline,
              gui_pipeline, session_phase_order, ht, hd, hx, hr]
    · simp only [Bool.not_eq_true] at hd
      constructor <;>
        simp [phase_discipline, run_cli_updater, update_thread, cli_pipeline,
          gui_pipeline, session_phase_order, ht, hd]

/-- Witness for `session_phase_discipline` at a concrete environment where
the install step fails while a process is watched. -/
theorem session_phase_discipline_witness :
    phase_discipline
      (run_cli_updater ⟨fun _ _ => false, fun _ => true, [Entry.dir "U" [Entry.file "N.app"]],
        false⟩ "http://u" "App.app" (some 7)) (some 7) ∧
    phase_discipline
      (update_thread ⟨fun _ _ => false, fun _ => true, [Entry.dir "U" [Entry.file "N.app"]],
        false⟩ "http://u" "App.app" (some 7)) (some 7) :=
  session_phase_discipline
    ⟨fun _ _ => false, fun _ => true, [Entry.dir "U" [Entry.file "N.app"]], false⟩
    "http://u" "App.app" (some 7)

/-- C7, counterexample: a download failure in headless mode calls
`sys.exit(1)` — the terminal process exit code is 1, not 0, so failure *is*
distinguished from success via the exit code. -/
theorem C7_exit_code_counterexample :
    (run_cli_updater ⟨fun _ _ => false, fun _ => false, [], true⟩
        "http://u" "App.app" none).failed = some Phase.download ∧
    (run_cli_updater ⟨fun _ _ => false, fun _ => false, [], true⟩
        "http://u" "App.app" none).exit_call = some 1 := by decide

/-- C7 (amended): in headless mode the process exit code does distinguish
the terminal outcomes: a failure-free run calls no `sys.exit` (the process
ends with code 0), while every failing phase terminates the process through
`sys.exit(1)`. -/
theorem run_cli_updater_exit_codes (env : Env) (download_url app_path : String)
    (main_pid : Option Nat) :
    ((run_cli_updater env download_url app_path main_pid).failed = none →
      (run_cli_updater env download_url app_path main_pid).exit_call = none) ∧
    (∀ p, (run_cli_updater env download_url app_path main_pid).failed = some p →
      (run_cli_updater env download_url app_path main_pid).exit_call = some 1) := by
  by_cases ht : truthy main_pid = true
  · by_cases hw : wait_for_process_exit env.alive (main_pid.getD 0) 30 = true
    · by_cases hd : env.download_ok download_url = true
      · cases hx : extract_app env.archive with
        | error e => simp [run_cli_updater, cli_pipeline, ht, hw, hd, hx]
        | ok v =>
          by_cases hr : env.replace_ok = true
          · simp [run_cli_updater, cli_pipeline, ht, hw, hd, hx, hr]
          · simp only [Bool.not_eq_true] at hr
            simp [run_cli_updater, cli_pipeline, ht, hw, hd, hx, hr]
      · simp only [Bool.not_eq_true] at hd
        simp [run_cli_updater, cli_pipeline, ht, hw, hd]
    · simp only [Bool.not_eq_true] at hw
      simp [run_cli_updater, ht, hw]
  · simp only [Bool.not_eq_true] at ht
    by_cases hd : env.download_ok download_url = true
    · cases hx : extract_app env.archive with
      | error e => simp [run_cli_updater, cli_pipeline, ht, hd, hx]
      | ok v =>
        by_cases hr : env.replace_ok = true
        · simp [run_cli_updater, cli_pipeline, ht, hd, hx, hr]
        · simp only [Bool.not_eq_true] at hr
          simp [run_cli_updater, cli_pipeline, ht, hd, hx, hr]
    · simp only [Bool.not_eq_true] at hd
      simp [run_cli_updater, cli_pipeline, ht, hd]

/-- Witness for `run_cli_updater_exit_codes` at a concrete failing and a
concrete succeeding environment. -/
theorem run_cli_updater_exit_codes_witness :
    (run_cli_updater ⟨fun _ _ => false, fun _ => true, [Entry.file "N.app"], true⟩
        "http://u" "App.app" none).exit_call = none ∧
    (run_cli_updater ⟨fun _ _ => false, fun _ => false, [], true⟩
        "http://u" "App.app" none).exit_call = some 1 :=
  ⟨(run_cli_updater_exit_codes ⟨fun _ _ => false, fun _ => true, [Entry.file "N.app"], true⟩
      "http://u" "App.app" none).1 (by decide),
   (run_cli_updater_exit_codes ⟨fun _ _ => false, fun _ => false, [], true⟩
      "http://u" "App.app" none).2 Phase.download (by decide)⟩

/-- C9: when the GUI toolkit cannot be imported, `run_gui_updater` runs the
identical headless pipeline with the same download URL, bundle path and
watched pid — the import failure itself fails nothing. -/
theorem run_gui_updater_fallback (env : Env) (download_url app_path : String)
    (main_pid : Option Nat) :
    run_gui_updater false env download_url app_path main_pid
      = run_cli_updater env download_url app_path main_pid := rfl

end GSlides
